import Mathlib

/-!
Verification of the Komga-RPC activity-resolution logic.

Shallow embedding of the two Rust binaries:
* `src/src/main.rs` — the main RPC client. The core is `set_activity`
  (lines 332-541): it pages through `/api/v1/books?sort=lastModified,desc`,
  selects the most recent in-progress book, applies a 300-second freshness
  gate, derives presentation fields, resolves a cover URL (with an
  Imgur-backed cache, `get_komga_cover_path`, lines 543-587), and drives the
  Discord presence.  The poll loop in `main` (lines 165-309) schedules full
  checks and page updates.
* `src/installer/src/main.rs` — a simpler variant whose
  `get_current_reading` applies library exclusion and uses the direct
  thumbnail URL as the default cover.

HTTP and IPC effects are abstracted into an explicit environment: each
remote call's observable outcome (status success, parsed body fields) is a
field of `Env`; timestamps are `Int` seconds (the code compares
`chrono` timestamps via `num_seconds`); the cover cache (`HashMap<String,
String>`) is an association list.
-/

namespace KomgaRPC

/-- Fields of the `readProgress` JSON object as accessed by the code:
`completed` (`as_bool`, so `Option Bool`; the code defaults a missing value
to `true`), `page` (`as_u64`), and the `lastModified` string *after* the
`chrono::DateTime::parse_from_rfc3339` step: `none` means the field was
absent or unparseable, `some t` means it parsed to timestamp `t` (seconds).
The code itself collapses absent and unparseable to `None` at both use
sites (lines 375-376 and 414-415), so storing the parsed result is
faithful. -/
structure ReadProgress where
  completed : Option Bool
  page : Option Nat
  lastModified : Option Int
deriving DecidableEq

/-- The fields of a book JSON object read by `set_activity`:
`id`, `title`, `name`, `metadata.title`, `metadata.authors` (each entry's
optional `name` field), `seriesId`, `libraryId`, `readProgress`. -/
structure Book where
  id : Option String
  title : Option String
  name : Option String
  metadataTitle : Option String
  metadataAuthors : Option (List (Option String))
  seriesId : Option String
  libraryId : Option String
  readProgress : Option ReadProgress
deriving DecidableEq

/-- Mirror of the Rust `Config` struct (main.rs lines 17-26).  Note that
`exclude_libraries` is declared but never read anywhere in the main
binary. -/
structure Config where
  discordClientId : String
  komgaUrl : String
  komgaApiKey : String
  showProgress : Option Bool
  useImgurCover : Option Bool
  imgurClientId : Option String
  excludeLibraries : Option (List String)
deriving DecidableEq

/-- Observable body of the series-detail response, deserialized as the Rust
`Series` struct (fields used by `set_activity`: `title`, `authors` names). -/
structure SeriesResp where
  title : Option String
  authors : Option (List String)
deriving DecidableEq

/-- Observable outcome of the cover-resolution network calls in
`get_komga_cover_path`: `thumbStatus` is the HTTP status of the
`GET /api/v1/series/{id}/thumbnail` call (`none` = the send itself failed),
`uploadResult` is the outcome of `upload_to_imgur` (`some url` on success,
`none` on any failure). -/
structure CoverEnv where
  thumbStatus : Option Nat
  uploadResult : Option String
deriving DecidableEq

/-- The environment of one `set_activity` invocation: resolution time
(`now = Utc::now()` in seconds), and the observable outcomes of each HTTP
call it may issue.  `books` is the in-order concatenation of the pages
returned by the primary listing call (the per-page mechanics preserve scan
order and the early exit, so a single list is an equivalent view);
`primaryOk` is whether that call's status was 2xx.  `seriesOk`/`series` is
the series-detail call; `seriesRetryOk`/`seriesMetaTitle` is the second
series fetch used only when `series.title` is missing (it extracts
`metadata.title`); `libraryOk`/`libraryName` is the library-detail call
(`libraryName` is the parsed `name` field). -/
structure Env where
  now : Int
  primaryOk : Bool
  books : List Book
  seriesOk : Bool
  series : SeriesResp
  seriesRetryOk : Bool
  seriesMetaTitle : Option String
  libraryOk : Bool
  libraryName : Option String
  cover : CoverEnv
deriving DecidableEq

/-- The Discord activity payload built at main.rs lines 521-536: `details`
(first line, the series title), `state` (second line, book title plus page),
and the assets attached only when a cover URL was resolved (`large_image` =
the URL, `large_text` = the series title). -/
structure Activity where
  details : String
  state : String
  largeImage : Option String
  largeText : Option String
deriving DecidableEq

/-- Result of one `set_activity` call, as observed by the poll loop:
`err` = the function returned `Err` (in the model: the primary listing
status was non-2xx, line 361); `idle` = it called
`discord.clear_activity()` and returned `Ok`; `active a` = it called
`discord.set_activity(a)` and returned `Ok`. -/
inductive Resolution where
  | err : Resolution
  | idle : Resolution
  | active : Activity → Resolution
deriving DecidableEq

/-- Value of `book.get("readProgress")...get("lastModified")` followed by the
RFC3339 parse — the `last_modified` value of lines 375-376 / 414-415. -/
def bookTs (b : Book) : Option Int :=
  b.readProgress.bind (fun rp => rp.lastModified)

/-- Whether a book passes the in-progress filter of lines 371-374: it has a
`readProgress` object and `completed` (defaulted to `true` when absent) is
`false`. -/
def bookInProgress (b : Book) : Bool :=
  match b.readProgress with
  | none => false
  | some rp => !(rp.completed.getD true)

/-- Mirror of `most_recent_time.map_or(true, |t| updated_at > t)` (line 384): whether
a stale candidate with timestamp `t` replaces the tracked maximum. -/
def newerThanTracked (mrt : Option Int) (t : Int) : Bool :=
  match mrt with
  | none => true
  | some u => decide (t > u)

/-- The candidate scan of `set_activity` (main.rs lines 349-402) viewed
over the in-order list of fetched books, carrying the
`(most_recent_book, most_recent_time)` accumulator.  A book with a
`readProgress`, `completed == false` and a parseable `lastModified` within
300 seconds of `now` is taken immediately (`found`, the `true` flag);
otherwise a stale parseable candidate updates the tracked maximum; books
that are completed, lack `readProgress`, or lack a parseable timestamp are
skipped. -/
def scanLoop (now : Int) : List Book → Option Book → Option Int →
    Option Book × Option Int × Bool
  | [], mrb, mrt => (mrb, mrt, false)
  | b :: rest, mrb, mrt =>
    match bookInProgress b, bookTs b with
    | true, some t =>
      if now - t < 300 then (some b, some t, true)
      else if newerThanTracked mrt t = true then scanLoop now rest (some b) (some t)
      else scanLoop now rest mrb mrt
    | true, none => scanLoop now rest mrb mrt
    | false, _ => scanLoop now rest mrb mrt

/-- Mirror of `reqwest::StatusCode::is_success`: 2xx. -/
def isSuccessStatus (s : Nat) : Bool :=
  decide (200 ≤ s) && decide (s < 300)

/-- Mirror of `get_komga_cover_path` (main.rs lines 543-587).  Returns the resolved
cover URL option, the updated cache, and whether any network call was
attempted.  Structure of the source: the whole body is guarded by
`use_imgur_cover.unwrap_or(true)` and the presence of `imgur_client_id`;
inside, a cache hit returns immediately; on a miss the thumbnail is
fetched; on 2xx the bytes are uploaded to Imgur and a successful upload is
cached and returned; every other path (404, other status, failed send,
failed upload) falls through to `Ok(None)`, as does the un-configured
guard. -/
def getKomgaCoverPath (cfg : Config) (cenv : CoverEnv) (seriesId : String)
    (imgurCache : List (String × String)) :
    Option String × List (String × String) × Bool :=
  if cfg.useImgurCover.getD true = true then
    match cfg.imgurClientId with
    | some _cid =>
      let cacheKey := "komga_" ++ seriesId
      match imgurCache.lookup cacheKey with
      | some cachedUrl => (some cachedUrl, imgurCache, false)
      | none =>
        match cenv.thumbStatus with
        | some status =>
          if isSuccessStatus status = true then
            match cenv.uploadResult with
            | some imgurUrl => (some imgurUrl, (cacheKey, imgurUrl) :: imgurCache, true)
            | none => (none, imgurCache, true)
          else
            (none, imgurCache, true)
        | none => (none, imgurCache, true)
    | none => (none, imgurCache, false)
  else (none, imgurCache, false)

/-- The author-text fallback chain of main.rs lines 482-504: book-level
`metadata.authors` names, else series-level author names, joined with
`", "`; if both are empty, the owning library's name; else
`"Unknown Author"`.  (In the source this value is computed by
`set_activity` and then never attached to the presence payload.) -/
def computeAuthorText (bk : Book) (seriesAuthors : Option (List String))
    (libraryName : Option String) : String :=
  let bookAuthors : List String :=
    match bk.metadataAuthors with
    | some entries => entries.filterMap id
    | none => []
  let authors : List String :=
    if bookAuthors.isEmpty then
      match seriesAuthors with
      | some sa => sa
      | none => []
    else bookAuthors
  if !authors.isEmpty then String.intercalate ", " authors
  else
    match libraryName with
    | some libName => libName
    | none => "Unknown Author"

/-- The book-title fallback of lines 509-515: `metadata.title`, else
`title`, else `name`, else `"Untitled Book"`. -/
def bookDisplayTitle (bk : Book) : String :=
  ((bk.metadataTitle.orElse (fun _ => bk.title)).orElse (fun _ => bk.name)).getD
    "Untitled Book"

/-- The tail of `set_activity` after the freshness gate has passed
(main.rs lines 428-540), for the selected `book`:
* series detail fetch: non-2xx logs, clears the activity and returns `Ok`
  (lines 441-445) — modeled as `.idle`;
* series title: `series.title`, else (via a second fetch of the same URL)
  `metadata.title`, else `"Untitled"` (lines 448-464);
* library name: fetched only when the book's `libraryId` is non-empty and
  the call succeeds (lines 467-480);
* the author text of lines 482-504 is computed and dropped (never used in
  the payload);
* `details` = series title, `state` = book title plus `" (Page N)"` when a
  page number is present (lines 506-518);
* cover via `get_komga_cover_path`; assets attached only when a URL was
  resolved (lines 521-536). -/
def resolveDisplay (cfg : Config) (env : Env)
    (imgurCache : List (String × String)) (bk : Book) : Resolution :=
  if env.seriesOk = false then .idle
  else
    let seriesTitle : String :=
      (match env.series.title with
       | some t => some t
       | none => if env.seriesRetryOk = true then env.seriesMetaTitle else none).getD
        "Untitled"
    let libraryName : Option String :=
      if bk.libraryId.getD "" = "" then none
      else if env.libraryOk = true then env.libraryName else none
    let _authorText := computeAuthorText bk env.series.authors libraryName
    let details := seriesTitle
    let pageNum : Option Nat := bk.readProgress.bind (fun rp => rp.page)
    let st : String :=
      match pageNum with
      | some p => bookDisplayTitle bk ++ " (Page " ++ toString p ++ ")"
      | none => bookDisplayTitle bk
    let coverUrl : Option String :=
      (getKomgaCoverPath cfg env.cover (bk.seriesId.getD "") imgurCache).1
    .active
      { details := details
        state := st
        largeImage := coverUrl
        largeText := coverUrl.map (fun _ => details) }

/-- Mirror of `set_activity` (main.rs lines 332-541) as a function of its
environment: a non-2xx primary listing status is a hard `Err` (line 361);
otherwise the scan selects `most_recent_book`; no selected book clears the
activity (lines 404-411); the freshness gate re-parses the selected book's
`lastModified` and clears when it is missing or at least 300 seconds old
(lines 413-426); otherwise the display fields are derived. -/
def setActivity (cfg : Config) (env : Env)
    (imgurCache : List (String × String)) : Resolution :=
  if env.primaryOk = true then
    match (scanLoop env.now env.books none none).1 with
    | none => .idle
    | some bk =>
      match bookTs bk with
      | none => .idle
      | some t =>
        if env.now - t ≥ 300 then .idle
        else resolveDisplay cfg env imgurCache bk
  else .err

/-- ASCII lowercasing of one character, as Rust's
`u8::to_ascii_lowercase` does per byte. -/
def asciiToLower (c : Char) : Char :=
  if 'A' ≤ c ∧ c ≤ 'Z' then Char.ofNat (c.toNat + 32) else c

/-- Rust's `str::eq_ignore_ascii_case`, used by the installer binary's
exclusion test (installer/src/main.rs line 129): equality after ASCII
lowercasing. -/
def eqIgnoreAsciiCase (a b : String) : Bool :=
  a.data.map asciiToLower == b.data.map asciiToLower

/-- The installer binary's library-exclusion test
(installer/src/main.rs lines 128-131): with a non-empty `exclude_libraries`
list, a case-insensitive match of the entry's `libraryName` forces the
`None` (clear-activity) result. -/
def installerExcluded (excludeLibraries : List String) (libraryName : String) : Bool :=
  !excludeLibraries.isEmpty &&
    excludeLibraries.any (fun lib => eqIgnoreAsciiCase lib libraryName)

/-- The installer binary's cover derivation (installer/src/main.rs lines
133-141): the direct server thumbnail URL is the default; only when
`use_imgur_cover` is set, a client id is present and the upload succeeds is
it replaced by the Imgur link. -/
def installerCoverUrl (useImgur : Bool) (imgurClientId : Option String)
    (komgaUrl seriesId : String) (uploadResult : Option String) : String :=
  let coverUrl := komgaUrl ++ "/api/v1/series/" ++ seriesId ++ "/thumbnail"
  if useImgur = true then
    match imgurClientId with
    | some _cid =>
      match uploadResult with
      | some imgurUrl => imgurUrl
      | none => coverUrl
    | none => coverUrl
  else coverUrl

/-- The mutable state of the poll loop in `main` (main.rs lines 145-163)
that the loop body reads or writes.  `currentSeries` stands for
`current_series` (only its `id` matters to the loop); note that
`set_activity` never writes through its `current_series` parameter, so the
full-check success branch sees whatever the loop state holds. -/
structure LoopState where
  lastFullCheck : Int
  lastPageUpdate : Int
  currentSeries : Option String
  lastSeriesId : Option String
  lastSeriesTime : Option Int
  currentBookId : Option String
  currentSeriesId : Option String
  currentSeriesTitle : Option String
deriving DecidableEq

/-- The loop state right after initialization at `startTime`
(main.rs lines 149-161): both stamps are `SystemTime::now()`, every option
is `None`. -/
def initLoopState (startTime : Int) : LoopState :=
  { lastFullCheck := startTime
    lastPageUpdate := startTime
    currentSeries := none
    lastSeriesId := none
    lastSeriesTime := none
    currentBookId := none
    currentSeriesId := none
    currentSeriesTitle := none }

/-- Mirror of `stamp.elapsed().unwrap_or(Duration::from_secs(0))` in seconds:
`elapsed` fails (and is defaulted to 0) when the clock reads earlier than
the stamp. -/
def elapsedSecs (now stamp : Int) : Int :=
  max (now - stamp) 0

/-- Mirror of `do_full_check` (main.rs line 167): 20 seconds
(`full_check_interval`) elapsed since `last_full_check`. -/
def doFullCheck (s : LoopState) (now : Int) : Bool :=
  decide (elapsedSecs now s.lastFullCheck ≥ 20)

/-- Mirror of `do_page_update` (main.rs line 168): 5 seconds
(`page_update_interval`) elapsed since `last_page_update`. -/
def doPageUpdate (s : LoopState) (now : Int) : Bool :=
  decide (elapsedSecs now s.lastPageUpdate ≥ 5)

/-- One iteration of the poll loop body (main.rs lines 165-309), restricted
to its effect on `LoopState`.  `activityOk` is whether `set_activity`
returned `Ok`.  In the full-check branch the error-classification arms
change no loop-state variable, and the success arm updates
`last_series_id`/`last_series_time` from `current_series` (lines 236-242);
crucially, `last_full_check` is never reassigned anywhere in the loop.  The
page-update branch re-stamps `last_page_update` (line 305); its body is
guarded by `current_book_id`, `current_series_id` and
`current_series_title` all being `Some` (line 245) and writes none of the
modeled variables. -/
def loopStep (s : LoopState) (now : Int) (activityOk : Bool) : LoopState :=
  if doFullCheck s now = true then
    if activityOk = true then
      match s.currentSeries with
      | some sid =>
        if s.lastSeriesId = some sid then s
        else { s with lastSeriesId := some sid, lastSeriesTime := some now }
      | none => s
    else s
  else if doPageUpdate s now = true then
    { s with lastPageUpdate := now }
  else s

/-- Iterating the poll loop over a trace of inputs (tick time and
`set_activity` outcome). -/
def runLoop (s : LoopState) (inputs : List (Int × Bool)) : LoopState :=
  inputs.foldl (fun st p => loopStep st p.1 p.2) s

/-- Whether the body of the 5-second page-update branch executes in state
`s` at time `now`: the branch is taken (`else if`, so no full check due,
page update due) and the `if let` guard of line 245 requires all three
`current_*` variables to be `Some`. -/
def pageBodyRuns (s : LoopState) (now : Int) : Bool :=
  !(doFullCheck s now) && doPageUpdate s now &&
    s.currentBookId.isSome && s.currentSeriesId.isSome &&
    s.currentSeriesTitle.isSome

/-- Pairwise order check between two books, restricted to the pairs the
server's `sort=lastModified,desc` constrains observably: when both books
have parseable timestamps, the earlier-listed one is at least as recent. -/
def tsOrdered (b c : Book) : Bool :=
  match bookTs b, bookTs c with
  | some t, some u => decide (u ≤ t)
  | _, _ => true

/-- The scanned list is sorted the way the primary listing call requests it
(`sort=lastModified,desc`, main.rs line 351): every book is `tsOrdered`
before all later ones. -/
def tsSorted : List Book → Bool
  | [] => true
  | b :: rest => rest.all (tsOrdered b) && tsSorted rest

/-- Invariant of the `(most_recent_book, most_recent_time)` accumulator:
either both are unset, or they hold a book together with its own parsed
timestamp, and that book was stale (the accumulator is only ever written in
the `else` branch of the 300-second test, line 384). -/
def scanInv (now : Int) (mrb : Option Book) (mrt : Option Int) : Prop :=
  (mrb = none ∧ mrt = none) ∨
  (∃ b0 u, mrb = some b0 ∧ mrt = some u ∧ bookTs b0 = some u ∧ now - u ≥ 300)

/-- Core property of the candidate scan: on a list sorted as the server
returns it, whenever the scan ends with a selected book, that book carries
a parsed timestamp equal to the tracked time, it came from the accumulator
or is an in-progress member of the list, and its timestamp dominates the
accumulator time and the timestamp of every in-progress candidate of the
list. -/
theorem scanLoop_select (now : Int) :
    ∀ (L : List Book) (mrb : Option Book) (mrt : Option Int)
      (b : Book) (mrtO : Option Int) (f : Bool),
    tsSorted L = true → scanInv now mrb mrt →
    scanLoop now L mrb mrt = (some b, mrtO, f) →
    ∃ t, mrtO = some t ∧ bookTs b = some t ∧
      (mrb = some b ∨ (b ∈ L ∧ bookInProgress b = true)) ∧
      (∀ u, mrt = some u → u ≤ t) ∧
      (∀ c ∈ L, bookInProgress c = true → ∀ u, bookTs c = some u → u ≤ t) := by
  intro L
  induction L with
  | nil =>
    intro mrb mrt b mrtO f _ hinv h
    simp only [scanLoop, Prod.mk.injEq] at h
    obtain ⟨h1, h2, _⟩ := h
    rcases hinv with ⟨hb, ht⟩ | ⟨b0, u, hb, ht, hts, hstale⟩
    · rw [hb] at h1; cases h1
    · rw [hb] at h1
      injection h1 with h1
      subst h1
      refine ⟨u, ?_, hts, Or.inl hb, ?_, ?_⟩
      · rw [← h2, ht]
      · intro v hv; rw [ht] at hv; injection hv with hv; omega
      · intro c hc; exact absurd hc (List.not_mem_nil c)
  | cons b0 rest ih =>
    intro mrb mrt b mrtO f hsort hinv h
    have hsort2 : rest.all (tsOrdered b0) = true ∧ tsSorted rest = true := by
      simpa [tsSorted, Bool.and_eq_true] using hsort
    by_cases hip : bookInProgress b0 = true
    · rcases hts0 : bookTs b0 with _ | t0
      · -- in-progress but no parseable timestamp: skipped
        simp only [scanLoop, hip, hts0] at h
        obtain ⟨t, h1, h2, h3, h4, h5⟩ := ih mrb mrt b mrtO f hsort2.2 hinv h
        refine ⟨t, h1, h2, ?_, h4, ?_⟩
        · rcases h3 with h3 | ⟨hm, hp⟩
          · exact Or.inl h3
          · exact Or.inr ⟨List.mem_cons_of_mem _ hm, hp⟩
        · intro c hc hcp u hcu
          rcases List.mem_cons.mp hc with rfl | hc
          · rw [hts0] at hcu; cases hcu
          · exact h5 c hc hcp u hcu
      · by_cases hfresh : now - t0 < 300
        · -- fresh candidate: selected immediately
          simp only [scanLoop, hip, hts0, if_pos hfresh, Prod.mk.injEq] at h
          obtain ⟨h1, h2, _⟩ := h
          injection h1 with h1
          subst h1
          refine ⟨t0, h2.symm, hts0, Or.inr ⟨List.mem_cons_self _ _, hip⟩, ?_, ?_⟩
          · intro v hv
            rcases hinv with ⟨_, ht⟩ | ⟨c0, u, _, ht, _, hstale⟩
            · rw [ht] at hv; cases hv
            · rw [ht] at hv; injection hv with hv; omega
          · intro c hc hcp u hcu
            rcases List.mem_cons.mp hc with rfl | hc
            · rw [hts0] at hcu; injection hcu with hcu; omega
            · have hord := (List.all_eq_true.mp hsort2.1) c hc
              unfold tsOrdered at hord
              rw [hts0, hcu] at hord
              exact of_decide_eq_true hord
        · -- stale candidate
          by_cases hnew : newerThanTracked mrt t0 = true
          · simp only [scanLoop, hip, hts0, if_neg hfresh, if_pos hnew] at h
            have hinv2 : scanInv now (some b0) (some t0) :=
              Or.inr ⟨b0, t0, rfl, rfl, hts0, by omega⟩
            obtain ⟨t, h1, h2, h3, h4, h5⟩ :=
              ih (some b0) (some t0) b mrtO f hsort2.2 hinv2 h
            have ht0t : t0 ≤ t := h4 t0 rfl
            refine ⟨t, h1, h2, ?_, ?_, ?_⟩
            · rcases h3 with h3 | ⟨hm, hp⟩
              · injection h3 with h3
                subst h3
                exact Or.inr ⟨List.mem_cons_self _ _, hip⟩
              · exact Or.inr ⟨List.mem_cons_of_mem _ hm, hp⟩
            · intro v hv
              unfold newerThanTracked at hnew
              rw [hv] at hnew
              have hlt : t0 > v := of_decide_eq_true hnew
              omega
            · intro c hc hcp u hcu
              rcases List.mem_cons.mp hc with rfl | hc
              · rw [hts0] at hcu; injection hcu with hcu; omega
              · exact h5 c hc hcp u hcu
          · simp only [scanLoop, hip, hts0, if_neg hfresh, if_neg hnew] at h
            obtain ⟨t, h1, h2, h3, h4, h5⟩ := ih mrb mrt b mrtO f hsort2.2 hinv h
            -- the tracked time exists and is at least t0
            have hmrt : ∃ u0, mrt = some u0 ∧ t0 ≤ u0 := by
              unfold newerThanTracked at hnew
              rcases hm : mrt with _ | u0
              · rw [hm] at hnew; simp at hnew
              · rw [hm] at hnew
                refine ⟨u0, rfl, ?_⟩
                have hngt : ¬ (t0 > u0) := by
                  intro hgt
                  exact hnew (decide_eq_true hgt)
                omega
            obtain ⟨u0, hu0, ht0u0⟩ := hmrt
            refine ⟨t, h1, h2, ?_, h4, ?_⟩
            · rcases h3 with h3 | ⟨hm, hp⟩
              · exact Or.inl h3
              · exact Or.inr ⟨List.mem_cons_of_mem _ hm, hp⟩
            · intro c hc hcp u hcu
              rcases List.mem_cons.mp hc with rfl | hc
              · rw [hts0] at hcu
                injection hcu with hcu
                have hu0t := h4 u0 hu0
                omega
              · exact h5 c hc hcp u hcu
    · have hip2 : bookInProgress b0 = false := by
        simpa using hip
      simp only [scanLoop, hip2] at h
      obtain ⟨t, h1, h2, h3, h4, h5⟩ := ih mrb mrt b mrtO f hsort2.2 hinv h
      refine ⟨t, h1, h2, ?_, h4, ?_⟩
      · rcases h3 with h3 | ⟨hm, hp⟩
        · exact Or.inl h3
        · exact Or.inr ⟨List.mem_cons_of_mem _ hm, hp⟩
      · intro c hc hcp u hcu
        rcases List.mem_cons.mp hc with rfl | hc
        · exact absurd hcp hip
        · exact h5 c hc hcp u hcu

/-- When every book fails the in-progress filter or lacks a parseable
timestamp, the scan leaves its accumulator untouched and finds nothing. -/
theorem scanLoop_all_skipped (now : Int) :
    ∀ (L : List Book) (mrb : Option Book) (mrt : Option Int),
    (∀ b ∈ L, bookInProgress b = false ∨ bookTs b = none) →
    scanLoop now L mrb mrt = (mrb, mrt, false) := by
  intro L
  induction L with
  | nil => intro mrb mrt _; rfl
  | cons b0 rest ih =>
    intro mrb mrt h
    have hrest : ∀ b ∈ rest, bookInProgress b = false ∨ bookTs b = none :=
      fun b hb => h b (List.mem_cons_of_mem _ hb)
    rcases h b0 (List.mem_cons_self _ _) with hip | hts
    · simp only [scanLoop, hip]
      exact ih mrb mrt hrest
    · cases hip : bookInProgress b0 with
      | false =>
        simp only [scanLoop, hip]
        exact ih mrb mrt hrest
      | true =>
        simp only [scanLoop, hip, hts]
        exact ih mrb mrt hrest

/-- A series-detail failure makes the display step clear the activity. -/
theorem resolveDisplay_seriesFail (cfg : Config) (env : Env)
    (imgurCache : List (String × String)) (bk : Book)
    (h : env.seriesOk = false) :
    resolveDisplay cfg env imgurCache bk = Resolution.idle := by
  unfold resolveDisplay
  rw [if_pos h]

/-- With the series detail available, the display step always produces an
`active` result. -/
theorem resolveDisplay_seriesOk (cfg : Config) (env : Env)
    (imgurCache : List (String × String)) (bk : Book)
    (h : env.seriesOk = true) :
    ∃ a, resolveDisplay cfg env imgurCache bk = Resolution.active a := by
  unfold resolveDisplay
  rw [if_neg (by simp [h])]
  exact ⟨_, rfl⟩

/-- The display step never returns `err`. -/
theorem resolveDisplay_not_err (cfg : Config) (env : Env)
    (imgurCache : List (String × String)) (bk : Book) :
    resolveDisplay cfg env imgurCache bk ≠ Resolution.err := by
  by_cases h : env.seriesOk = true
  · obtain ⟨a, ha⟩ := resolveDisplay_seriesOk cfg env imgurCache bk h
    rw [ha]
    intro hc
    cases hc
  · rw [resolveDisplay_seriesFail cfg env imgurCache bk (by simpa using h)]
    intro hc
    cases hc

/-- A non-2xx primary listing status is the hard-error path. -/
theorem setActivity_primaryFail (cfg : Config) (env : Env)
    (imgurCache : List (String × String)) (h : env.primaryOk = false) :
    setActivity cfg env imgurCache = Resolution.err := by
  unfold setActivity
  rw [if_neg (by simp [h])]

/-- With a 2xx primary listing status, `set_activity` never returns
`Err`: every later failure is absorbed into a cleared or degraded
resolution. -/
theorem setActivity_ne_err (cfg : Config) (env : Env)
    (imgurCache : List (String × String)) (h : env.primaryOk = true) :
    setActivity cfg env imgurCache ≠ Resolution.err := by
  unfold setActivity
  rw [if_pos h]
  rcases h1 : (scanLoop env.now env.books none none).1 with _ | bk
  · simp only [h1]
    intro hc; cases hc
  · simp only [h1]
    rcases h2 : bookTs bk with _ | t
    · simp only [h2]
      intro hc; cases hc
    · simp only [h2]
      by_cases h3 : env.now - t ≥ 300
      · rw [if_pos h3]
        intro hc; cases hc
      · rw [if_neg h3]
        exact resolveDisplay_not_err cfg env imgurCache bk

/-- Concrete test configuration without Imgur re-hosting. -/
def cfgBase : Config :=
  { discordClientId := "disc"
    komgaUrl := "http://localhost:25600"
    komgaApiKey := "key"
    showProgress := none
    useImgurCover := some false
    imgurClientId := none
    excludeLibraries := none }

/-- Concrete test configuration with Imgur re-hosting configured. -/
def cfgImgur : Config :=
  { cfgBase with useImgurCover := some true, imgurClientId := some "cid" }

/-- In-progress book, parsed timestamp 990, page 7. -/
def bkFresh990 : Book :=
  { id := some "B2", title := none, name := none, metadataTitle := none
    metadataAuthors := none, seriesId := some "S2", libraryId := none
    readProgress :=
      some { completed := some false, page := some 7, lastModified := some 990 } }

/-- In-progress book, parsed timestamp 980, page 3. -/
def bkFresh980 : Book :=
  { id := some "B3", title := none, name := none, metadataTitle := none
    metadataAuthors := none, seriesId := some "S3", libraryId := none
    readProgress :=
      some { completed := some false, page := some 3, lastModified := some 980 } }

/-- In-progress book whose progress is 900 seconds old at `now = 1000`. -/
def bkStale100 : Book :=
  { id := some "B4", title := none, name := none, metadataTitle := none
    metadataAuthors := none, seriesId := some "S4", libraryId := none
    readProgress :=
      some { completed := some false, page := some 9, lastModified := some 100 } }

/-- Completed book with a recent timestamp. -/
def bkCompleted : Book :=
  { id := some "B5", title := none, name := none, metadataTitle := none
    metadataAuthors := none, seriesId := some "S5", libraryId := none
    readProgress :=
      some { completed := some true, page := some 12, lastModified := some 995 } }

/-- In-progress book without a parseable `lastModified`. -/
def bkNoTs : Book :=
  { id := some "B6", title := none, name := none, metadataTitle := none
    metadataAuthors := none, seriesId := some "S6", libraryId := none
    readProgress :=
      some { completed := some false, page := some 2, lastModified := none } }

/-- Baseline environment at resolution time 1000: primary listing succeeds,
series detail succeeds with title `"Foo"` and author `"A. Author"`, library
detail succeeds but is never needed, and the cover thumbnail call fails to
send. -/
def envBase (books : List Book) : Env :=
  { now := 1000
    primaryOk := true
    books := books
    seriesOk := true
    series := { title := some "Foo", authors := some ["A. Author"] }
    seriesRetryOk := true
    seriesMetaTitle := none
    libraryOk := true
    libraryName := none
    cover := { thumbStatus := none, uploadResult := none } }

/-- C1: on the candidate list as the primary call returns it (sorted
`lastModified,desc`, expressed as the `tsSorted` hypothesis), the book
selected by the scan of `set_activity` is an in-progress member of the
list, always carries a parseable last-modified timestamp — so a candidate
with no parseable timestamp is never selected — and its timestamp is at
least that of every in-progress candidate with a valid timestamp, so of
two fresh candidates with `T1 < T2` the one with `T2` is selected. -/
theorem c1_latest_valid_selected (now : Int) (L : List Book)
    (hsorted : tsSorted L = true) (b : Book)
    (hsel : (scanLoop now L none none).1 = some b) :
    (b ∈ L ∧ bookInProgress b = true) ∧ (∃ t, bookTs b = some t) ∧
    ∀ t, bookTs b = some t → ∀ c ∈ L, bookInProgress c = true →
      ∀ u, bookTs c = some u → u ≤ t := by
  have h := scanLoop_select now L none none b
    (scanLoop now L none none).2.1 (scanLoop now L none none).2.2
    hsorted (Or.inl ⟨rfl, rfl⟩) (by rw [← hsel])
  obtain ⟨t, _, hts, hsrc, _, hmax⟩ := h
  refine ⟨?_, ⟨t, hts⟩, ?_⟩
  · rcases hsrc with hsrc | hsrc
    · cases hsrc
    · exact hsrc
  · intro t2 ht2 c hc hcp u hcu
    rw [hts] at ht2
    injection ht2 with ht2
    subst ht2
    exact hmax c hc hcp u hcu

/-- Witness for C1: at `now = 1000` with the sorted fresh candidates
`[990, 980]` the scan selects the book stamped 990 and its timestamp
dominates both. -/
theorem c1_witness :
    (bkFresh990 ∈ [bkFresh990, bkFresh980] ∧ bookInProgress bkFresh990 = true) ∧
    (∃ t, bookTs bkFresh990 = some t) ∧
    ∀ t, bookTs bkFresh990 = some t → ∀ c ∈ [bkFresh990, bkFresh980],
      bookInProgress c = true → ∀ u, bookTs c = some u → u ≤ t :=
  c1_latest_valid_selected 1000 [bkFresh990, bkFresh980] (by decide)
    bkFresh990 (by decide)

/-- C2: the 300-second freshness gate.  If the selected most-recent
in-progress book's timestamp is 300 seconds or more before resolution
time, `set_activity` clears the activity (`idle`); an `active` result is
produced only when the selected book's timestamp is strictly within the
window. -/
theorem c2_freshness_gate (cfg : Config) (env : Env)
    (imgurCache : List (String × String)) (b : Book)
    (hok : env.primaryOk = true)
    (hsel : (scanLoop env.now env.books none none).1 = some b) :
    (∀ t, bookTs b = some t → env.now - t ≥ 300 →
      setActivity cfg env imgurCache = Resolution.idle) ∧
    (∀ a, setActivity cfg env imgurCache = Resolution.active a →
      ∃ t, bookTs b = some t ∧ env.now - t < 300) := by
  constructor
  · intro t ht hstale
    unfold setActivity
    rw [if_pos hok]
    simp only [hsel, ht]
    rw [if_pos hstale]
  · intro a ha
    unfold setActivity at ha
    rw [if_pos hok] at ha
    simp only [hsel] at ha
    rcases ht : bookTs b with _ | t
    · simp only [ht] at ha
      cases ha
    · simp only [ht] at ha
      by_cases hstale : env.now - t ≥ 300
      · rw [if_pos hstale] at ha
        cases ha
      · exact ⟨t, rfl, by omega⟩

/-- Witness for C2: a lone in-progress book 900 seconds old at resolution
time resolves to `idle`. -/
theorem c2_witness : setActivity cfgBase (envBase [bkStale100]) [] = Resolution.idle :=
  (c2_freshness_gate cfgBase (envBase [bkStale100]) [] bkStale100 rfl
    (by decide)).1 100 (by decide) (by decide)

/-- C4: when no eligible candidate exists — empty list, every candidate
completed, or no in-progress candidate with a parseable timestamp — and
the primary listing call itself succeeded, `set_activity` clears the
activity and returns `Ok` (`idle`), never an error. -/
theorem c4_no_candidate_idle (cfg : Config) (env : Env)
    (imgurCache : List (String × String))
    (hok : env.primaryOk = true)
    (h : ∀ b ∈ env.books, bookInProgress b = false ∨ bookTs b = none) :
    setActivity cfg env imgurCache = Resolution.idle := by
  unfold setActivity
  rw [if_pos hok]
  have hs := scanLoop_all_skipped env.now env.books none none h
  rw [hs]

/-- Witness for C4: a completed book plus an in-progress book without a
parseable timestamp resolve to `idle`. -/
theorem c4_witness :
    setActivity cfgBase (envBase [bkCompleted, bkNoTs]) [] = Resolution.idle :=
  c4_no_candidate_idle cfgBase (envBase [bkCompleted, bkNoTs]) [] rfl (by decide)

/-- The book of the C5 scenario: no titles anywhere, page 42, in progress,
`lastModified` parsed to 990 (= now − 10 at resolution time 1000). -/
def bookB1 : Book :=
  { id := some "B1", title := none, name := none, metadataTitle := none
    metadataAuthors := none, seriesId := some "S1", libraryId := none
    readProgress :=
      some { completed := some false, page := some 42, lastModified := some 990 } }

/-- The environment of the C5 scenario: series `S1` with title `"Foo"` and
author `"A. Author"`. -/
def envC5 : Env := envBase [bookB1]

/-- C5 counterexample: at the claimed scenario the resolution is `active`
with `details = "Foo"`, but the presence's second line (the subtitle /
`state` field) is the book-title fallback `"Untitled Book (Page 42)"`, not
the author text `"A. Author"` — the claim's "subtitle is the author text"
is false on the code, which computes the author text and never attaches
it. -/
theorem c5_counterexample :
    setActivity cfgBase envC5 [] =
      Resolution.active
        { details := "Foo", state := "Untitled Book (Page 42)"
          largeImage := none, largeText := none } ∧
    "Untitled Book (Page 42)" ≠ "A. Author" :=
  ⟨rfl, by decide⟩

/-- C5 (amended): the scenario resolves to `active` with details `"Foo"`
and with `" (Page 42)"` appended to the second line because a page number
is present; the author text `"A. Author"` is derived by the documented
fallback chain (book authors → series authors → library name → "Unknown
Author") but is not part of the presence payload — the second line is the
book-title fallback `"Untitled Book"`. -/
theorem c5_scenario_fields :
    setActivity cfgBase envC5 [] =
      Resolution.active
        { details := "Foo", state := "Untitled Book (Page 42)"
          largeImage := none, largeText := none } ∧
    computeAuthorText bookB1 envC5.series.authors none = "A. Author" ∧
    bookDisplayTitle bookB1 = "Untitled Book" :=
  ⟨rfl, rfl, rfl⟩

/-- C6 (amended): among the HTTP-status outcomes `set_activity` observes,
the hard `Err` happens exactly when the primary book-listing status is
non-2xx; with a 2xx primary status no later lookup failure produces an
error.  A library-detail failure degrades (the activity is still
resolved), but a series-detail failure does *not* degrade to default
fields: it clears the activity (`idle`). -/
theorem c6_error_boundary (cfg : Config) (env : Env)
    (imgurCache : List (String × String)) :
    (env.primaryOk = false → setActivity cfg env imgurCache = Resolution.err) ∧
    (env.primaryOk = true → setActivity cfg env imgurCache ≠ Resolution.err) ∧
    (∀ b t, env.primaryOk = true →
      (scanLoop env.now env.books none none).1 = some b →
      bookTs b = some t → env.now - t < 300 → env.seriesOk = false →
      setActivity cfg env imgurCache = Resolution.idle) ∧
    (∀ b t, env.primaryOk = true →
      (scanLoop env.now env.books none none).1 = some b →
      bookTs b = some t → env.now - t < 300 → env.seriesOk = true →
      env.libraryOk = false →
      ∃ a, setActivity cfg env imgurCache = Resolution.active a) := by
  refine ⟨fun h => setActivity_primaryFail cfg env imgurCache h,
    fun h => setActivity_ne_err cfg env imgurCache h, ?_, ?_⟩
  · intro b t hok hsel ht hfresh hser
    unfold setActivity
    rw [if_pos hok]
    simp only [hsel, ht]
    rw [if_neg (by omega)]
    exact resolveDisplay_seriesFail cfg env imgurCache b hser
  · intro b t hok hsel ht hfresh hser _hlib
    unfold setActivity
    rw [if_pos hok]
    simp only [hsel, ht]
    rw [if_neg (by omega)]
    exact resolveDisplay_seriesOk cfg env imgurCache b hser

/-- Environment whose series-detail call fails while the primary listing
and the selected candidate are fine. -/
def envSeriesFail : Env := { envBase [bkFresh990] with seriesOk := false }

/-- C6 counterexample: with a fresh selected candidate and a failing
series-detail (secondary) lookup, `set_activity` clears the activity
instead of resolving it with a default series title — the claim's "the
activity is still resolved" is false for this secondary lookup. -/
theorem c6_counterexample :
    setActivity cfgBase envSeriesFail [] = Resolution.idle ∧
    setActivity cfgBase envSeriesFail [] ≠
      Resolution.active
        { details := "Untitled", state := "Untitled Book (Page 7)"
          largeImage := none, largeText := none } :=
  ⟨rfl, by decide⟩

/-- Environment whose primary listing call returns a non-2xx status. -/
def envPrimaryFail : Env := { envBase [] with primaryOk := false }

/-- Witness for C6: a failing primary listing call is a hard error. -/
theorem c6_witness : setActivity cfgBase envPrimaryFail [] = Resolution.err :=
  (c6_error_boundary cfgBase envPrimaryFail []).1 rfl

/-- Configuration that excludes the library named `"Manga"`. -/
def cfgExclude : Config := { cfgBase with excludeLibraries := some ["Manga"] }

/-- Fresh in-progress book owned by library `L1`. -/
def bkExcluded : Book :=
  { id := some "B7", title := none, name := none, metadataTitle := none
    metadataAuthors := none, seriesId := some "S7", libraryId := some "L1"
    readProgress :=
      some { completed := some false, page := some 5, lastModified := some 990 } }

/-- Environment where the owning library of the selected book is named
`"manga"` — a case-insensitive match for the excluded `"Manga"`. -/
def envExcluded : Env := { envBase [bkExcluded] with libraryName := some "manga" }

/-- C3 at its failing input: the main binary's `set_activity` never reads
`exclude_libraries`, so a fresh book from the excluded library `"manga"`
is still shown as `active` (the library name even becomes the subtitle
fallback's input); the installer binary's `get_current_reading` *does*
implement the case-insensitive exclusion that the claim describes
(`installerExcluded`). -/
theorem c3_exclusion_ignored :
    cfgExclude.excludeLibraries = some ["Manga"] ∧
    eqIgnoreAsciiCase "Manga" "manga" = true ∧
    installerExcluded ["Manga"] "manga" = true ∧
    setActivity cfgExclude envExcluded [] =
      Resolution.active
        { details := "Foo", state := "Untitled Book (Page 5)"
          largeImage := none, largeText := none } :=
  ⟨rfl, by decide, by decide, rfl⟩

/-- When Imgur re-hosting is not configured (`use_imgur_cover` false, or
no client id), the cover resolver touches nothing: no network call, cache
unchanged, no URL — in particular it never inserts cache entries, so any
reachable cache state with an entry arose under an Imgur-configured run. -/
theorem getKomgaCoverPath_unconfigured (cfg : Config) (cenv : CoverEnv)
    (seriesId : String) (imgurCache : List (String × String))
    (h : cfg.useImgurCover.getD true = false ∨ cfg.imgurClientId = none) :
    getKomgaCoverPath cfg cenv seriesId imgurCache = (none, imgurCache, false) := by
  unfold getKomgaCoverPath
  rcases h with h | h
  · rw [if_neg (by simp [h])]
  · by_cases h2 : cfg.useImgurCover.getD true = true
    · rw [if_pos h2]
      simp only [h]
    · rw [if_neg h2]

/-- C7: a cache hit short-circuits the cover resolver — with Imgur
re-hosting configured (the only configuration under which entries are ever
inserted), a cache state containing the series key makes
`get_komga_cover_path` return the cached URL, issue zero network calls,
and leave the cache unchanged. -/
theorem c7_cache_hit (cfg : Config) (cenv : CoverEnv) (seriesId : String)
    (imgurCache : List (String × String)) (url : String)
    (himg : cfg.useImgurCover.getD true = true)
    (hcid : cfg.imgurClientId.isSome = true)
    (hhit : imgurCache.lookup ("komga_" ++ seriesId) = some url) :
    getKomgaCoverPath cfg cenv seriesId imgurCache = (some url, imgurCache, false) := by
  unfold getKomgaCoverPath
  rw [if_pos himg]
  rcases hc : cfg.imgurClientId with _ | cid
  · rw [hc] at hcid
    cases hcid
  · simp only [hc, hhit]

/-- A cover environment whose thumbnail call fails to send. -/
def coverEnvFail : CoverEnv := { thumbStatus := none, uploadResult := none }

/-- A cover environment whose thumbnail call returns 200 and whose Imgur
upload succeeds. -/
def coverEnvOk : CoverEnv :=
  { thumbStatus := some 200, uploadResult := some "https://i.imgur.com/xyz.png" }

/-- Witness for C7: with Imgur configured and an entry already cached for
series `S9`, resolution returns the cached URL with the cache unchanged
and no fetch attempted. -/
theorem c7_witness :
    getKomgaCoverPath cfgImgur coverEnvFail "S9"
        [("komga_S9", "https://i.imgur.com/abc.png")] =
      (some "https://i.imgur.com/abc.png",
        [("komga_S9", "https://i.imgur.com/abc.png")], false) :=
  c7_cache_hit cfgImgur coverEnvFail "S9"
    [("komga_S9", "https://i.imgur.com/abc.png")]
    "https://i.imgur.com/abc.png" (by decide) (by decide) (by decide)

/-- C8 counterexample: with no re-hosting target configured (`cfgBase`)
and a thumbnail that would be served with 200, the main binary's cover
resolver returns `none` — not `Some` of the direct server thumbnail URL as
the claim states. -/
theorem c8_counterexample :
    (getKomgaCoverPath cfgBase coverEnvOk "S1" []).1 = none :=
  rfl

/-- C8 (amended): on a cache miss, with Imgur configured, a 2xx thumbnail
fetch and a successful upload, the resolver caches and returns the public
URL; with no re-hosting target configured the main binary's resolver
returns `none` (no direct URL); the *installer* binary is the variant that
defaults to the direct server thumbnail URL. -/
theorem c8_cover_miss (cfg : Config) (cenv : CoverEnv) (seriesId : String)
    (imgurCache : List (String × String))
    (hmiss : imgurCache.lookup ("komga_" ++ seriesId) = none) :
    (∀ url, cfg.useImgurCover.getD true = true → cfg.imgurClientId.isSome = true →
      (∃ s, cenv.thumbStatus = some s ∧ isSuccessStatus s = true) →
      cenv.uploadResult = some url →
      getKomgaCoverPath cfg cenv seriesId imgurCache =
        (some url, ("komga_" ++ seriesId, url) :: imgurCache, true)) ∧
    (cfg.imgurClientId = none →
      getKomgaCoverPath cfg cenv seriesId imgurCache = (none, imgurCache, false)) ∧
    (∀ komgaUrl up,
      installerCoverUrl false none komgaUrl seriesId up =
        komgaUrl ++ "/api/v1/series/" ++ seriesId ++ "/thumbnail") := by
  refine ⟨?_, ?_, ?_⟩
  · intro url himg hcid hstatus hup
    obtain ⟨s, hs, hsucc⟩ := hstatus
    unfold getKomgaCoverPath
    rw [if_pos himg]
    rcases hc : cfg.imgurClientId with _ | cid
    · rw [hc] at hcid
      cases hcid
    · simp only [hc, hmiss, hs, hsucc, if_pos, hup]
  · intro h
    exact getKomgaCoverPath_unconfigured cfg cenv seriesId imgurCache (Or.inr h)
  · intro komgaUrl up
    rfl

/-- Witness for C8: a miss on an empty cache with Imgur configured, a 200
thumbnail and a successful upload caches and returns the Imgur link. -/
theorem c8_witness :
    getKomgaCoverPath cfgImgur coverEnvOk "S7" [] =
      (some "https://i.imgur.com/xyz.png",
        [("komga_S7", "https://i.imgur.com/xyz.png")], true) :=
  (c8_cover_miss cfgImgur coverEnvOk "S7" [] (by decide)).1
    "https://i.imgur.com/xyz.png" (by decide) (by decide)
    ⟨200, rfl, by decide⟩ rfl

/-- C9 at its failing input: `last_full_check` is stamped once at startup
(time 0) and never reassigned, so once 20 seconds have elapsed the
20-second gate is open on *every* subsequent iteration: the ticks at times
20 and 21 — one second apart — both run a full resolution, and the stamp
is still 0 afterwards.  The claim's minimum 20-second spacing between full
resolutions is violated by the code. -/
theorem c9_full_check_every_tick :
    doFullCheck (initLoopState 0) 20 = true ∧
    (loopStep (initLoopState 0) 20 true).lastFullCheck = 0 ∧
    doFullCheck (loopStep (initLoopState 0) 20 true) 21 = true ∧
    (21 : Int) - 20 < 20 :=
  ⟨by decide, by decide, by decide, by decide⟩

/-- The step function never writes `current_book_id`, `current_series_id` or
`current_series_title` (no statement in the loop body assigns them). -/
theorem loopStep_preserves_current (s : LoopState) (now : Int) (ok : Bool) :
    (loopStep s now ok).currentBookId = s.currentBookId ∧
    (loopStep s now ok).currentSeriesId = s.currentSeriesId ∧
    (loopStep s now ok).currentSeriesTitle = s.currentSeriesTitle := by
  unfold loopStep
  repeat' split
  all_goals exact ⟨rfl, rfl, rfl⟩

/-- Iterating the loop preserves the three `current_*` variables from any
start state. -/
theorem runLoop_preserves_current (inputs : List (Int × Bool)) :
    ∀ s : LoopState,
    (runLoop s inputs).currentBookId = s.currentBookId ∧
    (runLoop s inputs).currentSeriesId = s.currentSeriesId ∧
    (runLoop s inputs).currentSeriesTitle = s.currentSeriesTitle := by
  induction inputs with
  | nil => intro s; exact ⟨rfl, rfl, rfl⟩
  | cons p rest ih =>
    intro s
    have h1 := loopStep_preserves_current s p.1 p.2
    have h2 := ih (loopStep s p.1 p.2)
    have hrw : runLoop s (p :: rest) = runLoop (loopStep s p.1 p.2) rest := rfl
    rw [hrw]
    exact ⟨h2.1.trans h1.1, h2.2.1.trans h1.2.1, h2.2.2.trans h1.2.2⟩

/-- C10: in every state the poll loop can reach from its initial state
(over any trace of tick times and `set_activity` outcomes),
`current_book_id`, `current_series_id` and `current_series_title` are
still `None`, so the guard of the 5-second page-update branch body never
passes: every presence update comes from the full `set_activity` path. -/
theorem c10_page_branch_never_runs (startTime : Int) (inputs : List (Int × Bool)) :
    (runLoop (initLoopState startTime) inputs).currentBookId = none ∧
    (runLoop (initLoopState startTime) inputs).currentSeriesId = none ∧
    (runLoop (initLoopState startTime) inputs).currentSeriesTitle = none ∧
    ∀ now, pageBodyRuns (runLoop (initLoopState startTime) inputs) now = false := by
  obtain ⟨h1, h2, h3⟩ := runLoop_preserves_current inputs (initLoopState startTime)
  have hb : (runLoop (initLoopState startTime) inputs).currentBookId = none := h1
  refine ⟨hb, h2, h3, ?_⟩
  intro now
  simp [pageBodyRuns, hb]

/-- Witness for C10: over a concrete trace with a full check at 20 and a
tick at 26 (page update due), the page-update body still does not run. -/
theorem c10_witness :
    pageBodyRuns (runLoop (initLoopState 0) [(20, true), (26, true)]) 26 = false :=
  (c10_page_branch_never_runs 0 [(20, true), (26, true)]).2.2.2 26

end KomgaRPC
